import Mathlib

/-!
Verification of the NgRx todo example: the `todoReducer`, its actions, the
`selectAllTodos` memoized selector, and the store-core design (dispatch
atomicity and reentrant-dispatch queuing) specified for the library layer.

The reducer, actions and selector inputs are embedded from the repository
source (`todo.reducer.ts`, `todo.actions.ts`, `todo.selectors.ts`). The
`Date.now()` call inside the `addTodo` handler is modelled by threading the
clock reading `now : Nat` explicitly into the reducer, since the handler's
result depends on the wall clock at dispatch time.
-/

namespace Ngrx

/-- The `status` union of `TodoState`: `'pending' | 'loading' | 'error' | 'success'`. -/
inductive Status where
  | pending
  | loading
  | error
  | success
deriving DecidableEq, Repr

/-- The `Todo` model (`todo.model.ts`, fields as used by the reducer and actions). -/
structure Todo where
  id : String
  content : String
deriving DecidableEq, Repr

/-- `TodoState` from `todo.reducer.ts`. The `error` field is declared `string`
but initialised to `null` and reset to `null` on success, so it is modelled as
`Option String` with `none` for `null`. -/
structure TodoState where
  todos : List Todo
  error : Option String
  status : Status
deriving DecidableEq, Repr

/-- `initialState` from `todo.reducer.ts`: empty todos, `null` error, `'pending'`. -/
def initialState : TodoState :=
  { todos := [], error := none, status := Status.pending }

/-- The five action creators of `todo.actions.ts`, plus `other` for any action
of a kind the todo reducer does not handle (dispatch in NgRx broadcasts every
action to every reducer). -/
inductive TodoAction where
  | addTodo (content : String)
  | removeTodo (id : String)
  | loadTodos
  | loadTodosSuccess (todos : List Todo)
  | loadTodosFailure (error : String)
  | other (kind : String)
deriving DecidableEq, Repr

/-- The `type` string of each action, as registered by `createAction`. -/
def TodoAction.kind : TodoAction → String
  | TodoAction.addTodo _ => "[Todo Page] Add Todo"
  | TodoAction.removeTodo _ => "[Todo Page] Remove Todo"
  | TodoAction.loadTodos => "[Todo Page] Load Todos"
  | TodoAction.loadTodosSuccess _ => "[Todo API] Todo Load Success"
  | TodoAction.loadTodosFailure _ => "[Todo API] Todo Load Failure"
  | TodoAction.other k => k

/-- The action kinds bound by `on(...)` handlers in `todoReducer`. -/
def handledKinds : List String :=
  [ "[Todo Page] Add Todo"
  , "[Todo Page] Remove Todo"
  , "[Todo Page] Load Todos"
  , "[Todo API] Todo Load Success"
  , "[Todo API] Todo Load Failure" ]

/-- `todoReducer` from `todo.reducer.ts`. `now` is the value of `Date.now()`
at the moment the reducer runs (the `addTodo` handler generates the new
todo's id as `Date.now().toString()`). An action matched by no handler
leaves the state as-is, as `createReducer` does. -/
def todoReducer (now : Nat) (state : TodoState) : TodoAction → TodoState
  | TodoAction.addTodo content =>
      { state with todos := state.todos ++ [{ id := toString now, content := content }] }
  | TodoAction.removeTodo id =>
      { state with todos := state.todos.filter (fun todo => todo.id ≠ id) }
  | TodoAction.loadTodos =>
      { state with status := Status.loading }
  | TodoAction.loadTodosSuccess todos =>
      { state with todos := todos, error := none, status := Status.success }
  | TodoAction.loadTodosFailure error =>
      { state with error := some error, status := Status.error }
  | TodoAction.other _ => state

/-- Folding the reducer over a dispatched sequence. Each action is paired with
the `Date.now()` reading observed when its dispatch runs the reducer. -/
def dispatchAll : List (Nat × TodoAction) → TodoState → TodoState
  | [], s => s
  | (now, a) :: rest, s => dispatchAll rest (todoReducer now s a)

/-- `AppState` as used by `todo.selectors.ts`: the root state containing the
`todos` slice. -/
structure AppState where
  todos : TodoState
deriving DecidableEq, Repr

/-- `selectTodos` from `todo.selectors.ts`: picks the `todos` slice from the
root state. -/
def selectTodos (state : AppState) : TodoState := state.todos

/-- The projector of `selectAllTodos` in `todo.selectors.ts`:
`(state : TodoState) => state.todos`. -/
def allTodosProjector (state : TodoState) : List Todo := state.todos

/-- Modelled from the spec: one invocation of the memoized selector built by
`createSelector` (the `@ngrx/store` selector engine is not under `src/`).
The memo cell holds the last input-selector result paired with the last
output. A call evaluates the input selector on the given state, compares the
result with the memo cell's stored result, returns the memoized output
without calling the projector when unchanged, and otherwise calls the
projector once and stores the new pair. Returns the output, the updated
cell, and the number of projector invocations this call made (0 or 1). -/
def selectorStep {σ α β : Type} [DecidableEq α] (input : σ → α) (proj : α → β)
    (cell : Option (α × β)) (s : σ) : β × Option (α × β) × Nat :=
  let r := input s
  match cell with
  | some (r0, o0) =>
      if r = r0 then (o0, some (r0, o0), 0)
      else (proj r, some (r, proj r), 1)
  | none => (proj r, some (r, proj r), 1)

/-- Repeated invocations of the memoized selector over a list of states:
outputs in call order, the final memo cell, and the total number of
projector invocations across the run. -/
def selectorRun {σ α β : Type} [DecidableEq α] (input : σ → α) (proj : α → β) :
    Option (α × β) → List σ → List β × Option (α × β) × Nat
  | cell, [] => ([], cell, 0)
  | cell, s :: ss =>
      let step := selectorStep input proj cell s
      let rest := selectorRun input proj step.2.1 ss
      (step.1 :: rest.1, rest.2.1, step.2.2 + rest.2.2)

/-- Runs of the memoized `selectAllTodos` selector of `todo.selectors.ts`,
built from `selectTodos` and its projector. -/
def selectAllTodosRun :
    Option (TodoState × List Todo) → List AppState →
      List (List Todo) × Option (TodoState × List Todo) × Nat :=
  selectorRun selectTodos allTodosProjector

/-- Modelled from the spec: the Reducer Registry's composed root reducer
(the Store core is not under `src/`). Slice reducers are applied in
registration order, each to its own slice state; a slice reducer that raises
aborts the whole transition with a `ReducerFault` message, so no
partially-reduced state value is ever produced. -/
def rootReduce {σs α : Type} :
    List (σs → α → Except String σs) → List σs → α → Except String (List σs)
  | [], states, _ => Except.ok states
  | _ :: _, [], _ => Except.ok []
  | red :: reds, s :: states, a => do
      let s' ← red s a
      let rest ← rootReduce reds states a
      Except.ok (s' :: rest)

/-- Modelled from the spec: the Store holds the current state (slice states
in registration order) and the ordered list of state snapshots published to
subscribers. -/
structure Store (σs : Type) where
  states : List σs
  published : List (List σs)
deriving DecidableEq, Repr

/-- Modelled from the spec: `Store.dispatch` runs the root reducer on the
current state; on success it replaces the state and publishes the new
snapshot to every subscriber, while on a `ReducerFault` it surfaces the
fault synchronously to the dispatch caller with the store untouched. -/
def Store.dispatch {σs α : Type} (reds : List (σs → α → Except String σs))
    (st : Store σs) (a : α) : Store σs × Option String :=
  match rootReduce reds st.states a with
  | Except.ok states' =>
      ({ states := states', published := st.published ++ [states'] }, none)
  | Except.error e => (st, some e)

/-- A pair of slice reducers on `Nat` slices whose second slice raises on
every action, used to exercise dispatch failure. -/
def faultySlices : List (Nat → Nat → Except String Nat) :=
  [ fun s _ => Except.ok (s + 1), fun _ _ => Except.error "boom" ]

/-- Modelled from the spec: notifying every subscriber, in registration
order, with a newly published state; each subscriber may reentrantly
dispatch further actions, collected in notification order. -/
def notifyAll {σ α : Type} (subs : List (σ → List α)) (s : σ) : List α :=
  (subs.map (fun sub => sub s)).flatten

/-- Modelled from the spec: the Store's dispatch loop with a reentrant
dispatch queue. The queue head is the in-flight action: the reducer runs on
the current state, subscribers are notified of the new state, and any
actions they dispatch reentrantly are enqueued at the back (FIFO), to be
processed only after the in-flight dispatch's notifications complete.
`fuel` bounds the number of processed actions (reentrant dispatch can feed
the queue forever). Returns the final state and the log of
(action, resulting state) transitions in processing order. -/
def drainQueue {σ α : Type} (red : σ → α → σ) (subs : List (σ → List α)) :
    Nat → σ → List α → σ × List (α × σ)
  | 0, s, _ => (s, [])
  | _ + 1, s, [] => (s, [])
  | fuel + 1, s, a :: q =>
      let s' := red s a
      let rest := drainQueue red subs fuel s' (q ++ notifyAll subs s')
      (rest.1, (a, s') :: rest.2)

/-- The strictly sequential chain of states obtained by running the reducer
once per action, each run starting from the state the previous run
produced. -/
def chainStates {σ α : Type} (red : σ → α → σ) : σ → List α → List σ
  | _, [] => []
  | s, a :: rest => red s a :: chainStates red (red s a) rest

/-- Claim C2: `loadTodos` sets `status` to loading; `loadTodosSuccess ts`
replaces `todos` with `ts`, clears `error` and sets `status` to success;
`loadTodosFailure e` sets `status` to error and `error` to `e` while
leaving `todos` at its pre-failure value. -/
theorem todoReducer_load_transitions (now : Nat) (s : TodoState) (ts : List Todo) (e : String) :
    todoReducer now s TodoAction.loadTodos = { s with status := Status.loading }
    ∧ todoReducer now s (TodoAction.loadTodosSuccess ts)
        = { s with todos := ts, error := none, status := Status.success }
    ∧ todoReducer now s (TodoAction.loadTodosFailure e)
        = { s with error := some e, status := Status.error } :=
  ⟨rfl, rfl, rfl⟩

/-- Claim C3: `addTodo {content := "x"}` on `initialState` yields a single
todo carrying content `"x"` and some generated id, with `error` still `null`
and `status` unchanged from `initialState`. -/
theorem todoReducer_addTodo_on_initialState (now : Nat) :
    ∃ generated : String,
      todoReducer now initialState (TodoAction.addTodo "x")
        = { todos := [{ id := generated, content := "x" }]
          , error := none
          , status := initialState.status } :=
  ⟨toString now, rfl⟩

/-- Claim C9: `addTodo c` on any state keeps every existing todo in order and
appends exactly one new todo with content `c` at the end; `error` and
`status` are unchanged. -/
theorem todoReducer_addTodo_appends (now : Nat) (s : TodoState) (c : String) :
    (todoReducer now s (TodoAction.addTodo c)).todos
        = s.todos ++ [{ id := toString now, content := c }]
    ∧ (todoReducer now s (TodoAction.addTodo c)).error = s.error
    ∧ (todoReducer now s (TodoAction.addTodo c)).status = s.status :=
  ⟨rfl, rfl, rfl⟩

/-- Claim C10: `removeTodo i` keeps, in order, exactly the todos whose id
differs from `i`, and leaves `error` and `status` unchanged; when no todo
has id `i` the todos list itself is unchanged. -/
theorem todoReducer_removeTodo_frame (now : Nat) (s : TodoState) (i : String) :
    (todoReducer now s (TodoAction.removeTodo i)).todos
        = s.todos.filter (fun todo => todo.id ≠ i)
    ∧ (todoReducer now s (TodoAction.removeTodo i)).error = s.error
    ∧ (todoReducer now s (TodoAction.removeTodo i)).status = s.status
    ∧ ((∀ t ∈ s.todos, t.id ≠ i) →
        (todoReducer now s (TodoAction.removeTodo i)).todos = s.todos) := by
  refine ⟨rfl, rfl, rfl, fun h => ?_⟩
  show s.todos.filter (fun todo => todo.id ≠ i) = s.todos
  exact List.filter_eq_self.mpr (fun t ht => by simpa using h t ht)

/-- Witness for C10 at a concrete state whose single todo does not match. -/
theorem todoReducer_removeTodo_frame_witness :
    (todoReducer 5 { todos := [{ id := "7", content := "a" }]
                   , error := some "oops", status := Status.error }
        (TodoAction.removeTodo "1")).todos = [{ id := "7", content := "a" }]
    ∧ (todoReducer 5 { todos := [{ id := "7", content := "a" }]
                     , error := some "oops", status := Status.error }
        (TodoAction.removeTodo "1")).error = some "oops" :=
  ⟨(todoReducer_removeTodo_frame 5
      { todos := [{ id := "7", content := "a" }], error := some "oops", status := Status.error }
      "1").2.2.2 (by decide),
   (todoReducer_removeTodo_frame 5
      { todos := [{ id := "7", content := "a" }], error := some "oops", status := Status.error }
      "1").2.1⟩

/-- Claim C4: `removeTodo {id := "1"}` on a state whose todos list is exactly
one todo with id `"1"` empties the list. -/
theorem todoReducer_removeTodo_singleton (now : Nat) (s : TodoState) (t : Todo)
    (hid : t.id = "1") (hts : s.todos = [t]) :
    (todoReducer now s (TodoAction.removeTodo "1")).todos = [] := by
  show s.todos.filter (fun todo => todo.id ≠ "1") = []
  simp [hts, List.filter, hid]

/-- Witness for C4 at a concrete singleton state. -/
theorem todoReducer_removeTodo_singleton_witness :
    ({ id := "1", content := "buy milk" } : Todo).id = "1"
    ∧ (todoReducer 0 { todos := [{ id := "1", content := "buy milk" }]
                     , error := none, status := Status.pending }
        (TodoAction.removeTodo "1")).todos = [] :=
  ⟨rfl,
   todoReducer_removeTodo_singleton 0
     { todos := [{ id := "1", content := "buy milk" }], error := none, status := Status.pending }
     { id := "1", content := "buy milk" } rfl rfl⟩

/-- Claim C5: an action whose kind is none of the five handled kinds leaves
the state as the identical value (the shallow-embedding reading of
"identical input reference"). -/
theorem todoReducer_unhandled_noop (now : Nat) (s : TodoState) (a : TodoAction)
    (h : a.kind ∉ handledKinds) : todoReducer now s a = s := by
  cases a with
  | other k => rfl
  | addTodo c => exact absurd (by simp [TodoAction.kind, handledKinds]) h
  | removeTodo i => exact absurd (by simp [TodoAction.kind, handledKinds]) h
  | loadTodos => exact absurd (by simp [TodoAction.kind, handledKinds]) h
  | loadTodosSuccess ts => exact absurd (by simp [TodoAction.kind, handledKinds]) h
  | loadTodosFailure e => exact absurd (by simp [TodoAction.kind, handledKinds]) h

/-- Witness for C5: a foreign action kind is not handled and is a no-op. -/
theorem todoReducer_unhandled_noop_witness :
    (TodoAction.other "[Login Page] Login").kind ∉ handledKinds
    ∧ todoReducer 3 initialState (TodoAction.other "[Login Page] Login") = initialState :=
  ⟨by decide, todoReducer_unhandled_noop 3 initialState _ (by decide)⟩

/-- Claim C1 (code bug evidence): replaying the same action sequence
`[addTodo "x"]` from `initialState` with two different `Date.now()` readings
yields states that are not deep-equal, because the `addTodo` handler derives
the new todo's id from the wall clock inside the reducer. -/
theorem todoReducer_replay_clock_dependent :
    dispatchAll [(1000, TodoAction.addTodo "x")] initialState
      ≠ dispatchAll [(2000, TodoAction.addTodo "x")] initialState := by
  decide

/-- A run whose every state projects to the memo cell's stored input result
returns the memoized output each time and never invokes the projector. -/
theorem selectorRun_memoized {σ α β : Type} [DecidableEq α] (input : σ → α) (proj : α → β)
    (r : α) (o : β) :
    ∀ ss : List σ, (∀ s ∈ ss, input s = r) →
      selectorRun input proj (some (r, o)) ss = (List.replicate ss.length o, some (r, o), 0)
  | [], _ => rfl
  | s :: ss, h => by
      have hs : input s = r := h s (List.mem_cons_self s ss)
      have ih := selectorRun_memoized input proj r o ss
        (fun x hx => h x (List.mem_cons_of_mem s hx))
      simp [selectorRun, selectorStep, hs, ih, List.replicate_succ]

/-- Appending one state whose input result differs from the memo cell, after
states whose results all match it, makes exactly one projector call. -/
theorem selectorRun_one_change {σ α β : Type} [DecidableEq α] (input : σ → α) (proj : α → β)
    (r : α) (o : β) (t : σ) (ht : input t ≠ r) :
    ∀ ss : List σ, (∀ s ∈ ss, input s = r) →
      (selectorRun input proj (some (r, o)) (ss ++ [t])).2.2 = 1
  | [], _ => by simp [selectorRun, selectorStep, ht]
  | s :: ss, h => by
      have hs : input s = r := h s (List.mem_cons_self s ss)
      have ih := selectorRun_one_change input proj r o t ht ss
        (fun x hx => h x (List.mem_cons_of_mem s hx))
      simp [selectorRun, selectorStep, hs, ih]

/-- Claim C6: across repeated invocations of `selectAllTodos` in which the
input selector `selectTodos` keeps returning the same result, the projector
runs exactly once and the memoized output is returned every time; a further
call on which the input's result changed re-invokes the projector exactly
once more. -/
theorem selectAllTodos_memoization (s0 : AppState) (ss : List AppState) (t : AppState)
    (hsame : ∀ s ∈ ss, selectTodos s = selectTodos s0)
    (hdiff : selectTodos t ≠ selectTodos s0) :
    (selectAllTodosRun none (s0 :: ss)).2.2 = 1
    ∧ (selectAllTodosRun none (s0 :: ss)).1
        = List.replicate (ss.length + 1) (allTodosProjector (selectTodos s0))
    ∧ (selectAllTodosRun none ((s0 :: ss) ++ [t])).2.2 = 2 := by
  have hmem := selectorRun_memoized selectTodos allTodosProjector (selectTodos s0)
    (allTodosProjector (selectTodos s0)) ss hsame
  have hchg := selectorRun_one_change selectTodos allTodosProjector (selectTodos s0)
    (allTodosProjector (selectTodos s0)) t hdiff ss hsame
  refine ⟨?_, ?_, ?_⟩
  · show (selectorRun selectTodos allTodosProjector none (s0 :: ss)).2.2 = 1
    simp [selectorRun, selectorStep, hmem]
  · show (selectorRun selectTodos allTodosProjector none (s0 :: ss)).1 = _
    simp [selectorRun, selectorStep, hmem, List.replicate_succ]
  · show (selectorRun selectTodos allTodosProjector none ((s0 :: ss) ++ [t])).2.2 = 2
    simp [selectorRun, selectorStep, hchg]

/-- Witness for C6: three calls on value-identical states make one projector
call; a fourth call on a changed state makes a second. -/
theorem selectAllTodos_memoization_witness :
    (selectAllTodosRun none
        [⟨initialState⟩, ⟨initialState⟩, ⟨initialState⟩]).2.2 = 1
    ∧ (selectAllTodosRun none
        ([⟨initialState⟩, ⟨initialState⟩, ⟨initialState⟩]
          ++ [⟨{ todos := [{ id := "1", content := "a" }]
               , error := none, status := Status.pending }⟩])).2.2 = 2 :=
  ⟨(selectAllTodos_memoization ⟨initialState⟩ [⟨initialState⟩, ⟨initialState⟩]
      ⟨{ todos := [{ id := "1", content := "a" }], error := none, status := Status.pending }⟩
      (by decide) (by decide)).1,
   (selectAllTodos_memoization ⟨initialState⟩ [⟨initialState⟩, ⟨initialState⟩]
      ⟨{ todos := [{ id := "1", content := "a" }], error := none, status := Status.pending }⟩
      (by decide) (by decide)).2.2⟩

/-- Claim C7: when a slice reducer raises during `Store.dispatch`, the fault
is surfaced synchronously to the caller and the store's state and published
snapshots are exactly their pre-dispatch values: no partial state reaches
any subscriber. -/
theorem dispatch_atomic_on_fault {σs α : Type} (reds : List (σs → α → Except String σs))
    (st : Store σs) (a : α) (e : String)
    (h : (Store.dispatch reds st a).2 = some e) :
    (Store.dispatch reds st a).1.states = st.states
    ∧ (Store.dispatch reds st a).1.published = st.published := by
  cases hr : rootReduce reds st.states a with
  | ok states' => simp [Store.dispatch, hr] at h
  | error f => simp [Store.dispatch, hr]

/-- Witness for C7: the second slice reducer raises after the first slice
succeeded; the dispatch reports the fault and publishes nothing. -/
theorem dispatch_atomic_on_fault_witness :
    (Store.dispatch faultySlices { states := [0, 0], published := [] } 0).2 = some "boom"
    ∧ (Store.dispatch faultySlices { states := [0, 0], published := [] } 0).1.states = [0, 0]
    ∧ (Store.dispatch faultySlices { states := [0, 0], published := [] } 0).1.published = [] :=
  ⟨rfl,
   (dispatch_atomic_on_fault faultySlices { states := [0, 0], published := [] } 0 "boom" rfl).1,
   (dispatch_atomic_on_fault faultySlices { states := [0, 0], published := [] } 0 "boom" rfl).2⟩

/-- The transition log of the dispatch loop is a sequential chain: each
logged state is the reducer applied to the immediately preceding one. -/
theorem drainQueue_chain {σ α : Type} (red : σ → α → σ) (subs : List (σ → List α)) :
    ∀ (fuel : Nat) (s : σ) (q : List α),
      (drainQueue red subs fuel s q).2.map Prod.snd
        = chainStates red s ((drainQueue red subs fuel s q).2.map Prod.fst)
  | 0, _, _ => rfl
  | _ + 1, _, [] => rfl
  | fuel + 1, s, a :: q => by
      have ih := drainQueue_chain red subs fuel (red s a)
        (q ++ notifyAll subs (red s a))
      simp [drainQueue, chainStates, ih]

/-- Claim C8: reentrant dispatches are enqueued FIFO behind the already
queued actions and processed only after the in-flight dispatch's
notifications complete, and the resulting transition log is a strict
sequential chain of reducer runs with no interleaving. -/
theorem reentrant_dispatch_fifo_sequential {σ α : Type} (red : σ → α → σ)
    (subs : List (σ → List α)) (fuel : Nat) (s : σ) (q : List α) :
    ((drainQueue red subs fuel s q).2.map Prod.snd
        = chainStates red s ((drainQueue red subs fuel s q).2.map Prod.fst))
    ∧ ∀ a : α,
        drainQueue red subs (fuel + 1) s (a :: q)
          = ((drainQueue red subs fuel (red s a) (q ++ notifyAll subs (red s a))).1,
             (a, red s a)
               :: (drainQueue red subs fuel (red s a) (q ++ notifyAll subs (red s a))).2) :=
  ⟨drainQueue_chain red subs fuel s q, fun _ => rfl⟩

end Ngrx
